import Mathlib

/-!
Shallow embedding of `food_ordering_app.py` (a single-file tkinter + sqlite
food-ordering application) and proofs about its cart, checkout, schema
initialisation and admin add-food logic.

Modelling conventions:
* The sqlite database is an explicit `DB` record of typed row lists, plus
  integer sequences standing for the `AUTOINCREMENT` counters of the
  `customer`, `orders` and `payment` tables.
* All interactive `simpledialog` / `messagebox` answers consumed by
  `App.place_order_flow` are gathered up-front in a `Prompts` record;
  `askinteger` and `askstring` may return `None`, hence `Option` fields.
* Prices are `Int`: the schema declares every price column `INTEGER` and all
  rows reaching the cart carry integer prices, so Python's `float` round-trip
  and the `int(total_cost)` truncation at the orders insert are the identity.
* `PRAGMA foreign_keys = ON` is modelled by the foreign-key check performed
  at the orders insert (`fkOkOrder`); a violation raises, leaving only the
  previously committed customer insert behind.
-/

namespace FoodOrdering

/-- Kind tag of a cart line item: the first component of the Python tuple
`(type, id, name, price, qty)` is the string 'food' or 'drink'. -/
inductive ItemKind where
  | food
  | drink
deriving DecidableEq, Repr

/-- One cart line item, the tuple `(type, id, name, price, qty)` appended by
`on_food_add` / `on_drink_add`.  The id is `Option Int` because the handlers
set it to `None` when the tree-view iid fails to parse. -/
structure CartItem where
  typ : ItemKind
  id : Option Int
  name : String
  price : Int
  qty : Int
deriving DecidableEq, Repr

/-- Row of the `customer` table (custid AUTOINCREMENT, name, phone, address). -/
structure CustomerRow where
  custid : Int
  name : String
  phone : String
  address : String
deriving DecidableEq, Repr

/-- Row of the `cuisine` table. -/
structure CuisineRow where
  cuisineid : Int
  cuisinename : String
deriving DecidableEq, Repr

/-- Row of the `employee` table. -/
structure EmployeeRow where
  empid : Int
  fname : String
  lname : String
  dob : String
  emailid : String
  pwd : String
  address : String
  phoneno : String
  gender : String
  salary : Int
deriving DecidableEq, Repr

/-- Row of the `chef` table. -/
structure ChefRow where
  chefid : Int
  chefname : String
  address : String
  street : String
  phoneno : String
  cuisineid : Int
  empid : Int
  emailid : String
  pwd : String
  salary : Int
deriving DecidableEq, Repr

/-- Row of the `ingredient` table. -/
structure IngredientRow where
  ingid : Int
  ingname : String
deriving DecidableEq, Repr

/-- Row of the `food` table.  Every column except the primary key is nullable
(the admin add-food form may insert NULLs into any of them). -/
structure FoodRow where
  foodid : Int
  foodname : Option String
  price : Option Int
  quantity : Option Int
  foodavail : Option String
  cuisineid : Option Int
  ingid : Option Int
  chefid : Option Int
deriving DecidableEq, Repr

/-- Row of the `drink` table (its `quantity` column is declared TEXT). -/
structure DrinkRow where
  drinkid : Int
  drinkname : String
  price : Int
  quantity : String
  drinkavail : String
deriving DecidableEq, Repr

/-- Row of the `delivery` table. -/
structure DeliveryRow where
  delid : Int
  delname : String
  vehicleno : String
  delcharge : Int
  deldate : String
  deltime : String
  custid : Option Int
  empid : Option Int
deriving DecidableEq, Repr

/-- Row of the `orders` table: total cost plus single nullable references to
one food, one drink and one delivery. -/
structure OrderRow where
  ordid : Int
  totalcost : Int
  foodid : Option Int
  drinkid : Option Int
  delid : Option Int
deriving DecidableEq, Repr

/-- Row of the `payment` table. -/
structure PaymentRow where
  payid : Int
  paymethod : String
  custid : Int
  ordid : Int
deriving DecidableEq, Repr

/-- The whole sqlite store: the nine entity tables plus the AUTOINCREMENT
sequences of the three tables whose primary keys are auto-assigned. -/
structure DB where
  customer : List CustomerRow
  cuisine : List CuisineRow
  employee : List EmployeeRow
  chef : List ChefRow
  ingredient : List IngredientRow
  food : List FoodRow
  drink : List DrinkRow
  delivery : List DeliveryRow
  orders : List OrderRow
  payment : List PaymentRow
  custSeq : Int
  ordSeq : Int
  paySeq : Int
deriving DecidableEq, Repr

/-! ## Cart operations (`App` methods on `self.cart`) -/

/-- Append `(typ, id, name, price, qty)` to `self.cart`, as the add handlers do. -/
def cartAdd (cart : List CartItem) (it : CartItem) : List CartItem :=
  cart ++ [it]

/-- Model of `App.remove_selected_cart`: the selected iid is 1-based, the handler
computes `idx = int(sel[0]) - 1` and pops only when `0 <= idx < len(cart)`;
otherwise nothing happens. -/
def remove_selected_cart (cart : List CartItem) (idx : Int) : List CartItem :=
  if 0 ≤ idx ∧ idx < (cart.length : Int) then cart.eraseIdx idx.toNat else cart

/-- Model of `App.clear_cart`: `self.cart = []`. -/
def clear_cart (_cart : List CartItem) : List CartItem :=
  []

/-- The running total accumulated by `App.update_cart_view`
(`total = 0; for item in cart: total += price * qty`).  The Python loop skips
tuples whose length is not 5; in this typed embedding every `CartItem` has
exactly the five fields, so no item is skipped. -/
def update_cart_view_total (cart : List CartItem) : Int :=
  cart.foldl (fun total it => total + it.price * it.qty) 0

/-- Specification-level cart total: sum of unit_price × quantity over the
line items (also the expression `sum(item[3] * item[4] for item in self.cart)`
computed by `place_order_flow`). -/
def cartTotal (cart : List CartItem) : Int :=
  (cart.map (fun it => it.price * it.qty)).sum

/-- A single user action on the cart. -/
inductive CartOp where
  | add (it : CartItem)
  | remove (idx : Int)
  | clear
deriving DecidableEq, Repr

/-- Apply one cart operation. -/
def applyOp (cart : List CartItem) : CartOp → List CartItem
  | .add it => cartAdd cart it
  | .remove idx => remove_selected_cart cart idx
  | .clear => clear_cart cart

/-- Apply a sequence of cart operations, starting from the given cart. -/
def applyOps (ops : List CartOp) (cart : List CartItem) : List CartItem :=
  ops.foldl applyOp cart

/-! ## Checkout flow (`App.place_order_flow`) -/

/-- How a run of `place_order_flow` ends. -/
inductive CheckoutOutcome where
  | emptyCart
  | declinedCreate
  | missingFields
  | custNotFound
  | deliveryAborted
  | fkViolation
  | placed (ordid : Int) (total : Int)
deriving DecidableEq, Repr

/-- All dialog answers `place_order_flow` may consume, in order:
customer-id prompt, create-new confirmation, the four new-customer strings,
the delivery choice, and the payment-method string. -/
structure Prompts where
  custid : Option Int
  createNew : Bool
  fname : Option String
  lname : Option String
  phone : Option String
  address : Option String
  deliveryChoice : Option Int
  paymethod : Option String
deriving DecidableEq, Repr

/-- Result of a run: the store after it, the outcome, and the cart after it
(cleared only on success; an aborted run leaves the cart as it was). -/
structure FlowResult where
  db : DB
  outcome : CheckoutOutcome
  cart : List CartItem
deriving DecidableEq, Repr

/-- The create-new-customer branch of `place_order_flow`.  Python's
`if not (fname and lname and phone and address)` rejects when any of the four
`askstring` answers is `None` or the empty string; otherwise the row is
inserted and committed at once and `cur.lastrowid` becomes the customer id. -/
def createCustomer (db : DB) (p : Prompts) : Except CheckoutOutcome (DB × Int) :=
  if ¬ p.createNew then .error .declinedCreate
  else
    match p.fname, p.lname, p.phone, p.address with
    | some f, some l, some ph, some a =>
      if f = "" ∨ l = "" ∨ ph = "" ∨ a = "" then .error .missingFields
      else
        .ok ({ db with
                customer := db.customer ++ [⟨db.custSeq, f ++ " " ++ l, ph, a⟩],
                custSeq := db.custSeq + 1 },
             db.custSeq)
    | _, _, _, _ => .error .missingFields

/-- Customer resolution: the `askinteger` answer is falsy (`None`; a zero
value would also be falsy, though the dialog's `minvalue=1` prevents it) ⇒
take the create-new branch; otherwise `SELECT COUNT(*) ... WHERE custid=?`
must find the id. -/
def resolveCustomer (db : DB) (p : Prompts) : Except CheckoutOutcome (DB × Int) :=
  match p.custid with
  | none => createCustomer db p
  | some c =>
    if c = 0 then createCustomer db p
    else if db.customer.any (fun r => r.custid == c) then .ok (db, c)
    else .error .custNotFound

/-- Delivery selection: with an empty delivery catalog the reference stays
`None` and the flow continues; with a non-empty catalog a cancelled
`askinteger` (`choice is None`) closes the connection and returns. -/
def chooseDelivery (db : DB) (p : Prompts) : Except CheckoutOutcome (Option Int) :=
  if db.delivery.isEmpty then .ok none
  else
    match p.deliveryChoice with
    | none => .error .deliveryAborted
    | some c => .ok (some c)

/-- Model of `first_food = next((it for it in self.cart if it[0]=='food'), None)` and
`foodid = first_food[1] if first_food else None`. -/
def firstFoodId (cart : List CartItem) : Option Int :=
  (cart.find? (fun it => it.typ == ItemKind.food)).bind CartItem.id

/-- Same for the first drink line item. -/
def firstDrinkId (cart : List CartItem) : Option Int :=
  (cart.find? (fun it => it.typ == ItemKind.drink)).bind CartItem.id

/-- Model of `paymethod = askstring(...) or 'Cash'`: `None` and the empty string are
both falsy and default to `"Cash"`. -/
def payMethodOf : Option String → String
  | none => "Cash"
  | some s => if s = "" then ("Cash") else s

/-- Foreign-key enforcement (`PRAGMA foreign_keys = ON`) on the orders
insert: each non-NULL reference must exist in its parent table. -/
def fkOkOrder (db : DB) (foodid drinkid delid : Option Int) : Bool :=
  (match foodid with
   | none => true
   | some f => db.food.any (fun r => r.foodid == f)) &&
  (match drinkid with
   | none => true
   | some d => db.drink.any (fun r => r.drinkid == d)) &&
  (match delid with
   | none => true
   | some d => db.delivery.any (fun r => r.delid == d))

/-- One iteration of the stock-update loop for a food line item:
`SELECT quantity FROM food WHERE foodid=?`, and when a row exists,
`UPDATE food SET quantity = max(0, (quantity or 0) - qty)`. -/
def decrementFood (foods : List FoodRow) (fid : Int) (qty : Int) : List FoodRow :=
  match foods.find? (fun f => f.foodid == fid) with
  | none => foods
  | some r =>
    let newq := max 0 (r.quantity.getD 0 - qty)
    foods.map (fun f => if f.foodid == fid then { f with quantity := some newq } else f)

/-- The whole stock-update loop: every cart item of kind food with a non-None
id triggers one `decrementFood`; drinks and id-less items are skipped. -/
def updateStock (foods : List FoodRow) (cart : List CartItem) : List FoodRow :=
  cart.foldl
    (fun fs it =>
      if it.typ == ItemKind.food then
        match it.id with
        | some fid => decrementFood fs fid it.qty
        | none => fs
      else fs)
    foods

/-- The tail of the flow once customer and delivery are settled: compute the
total, insert the order (FK-checked), insert the payment, run the stock loop,
commit, clear the cart.  The three successive statements touch disjoint
parts of the store, so they are written as one simultaneous record update:
the order gets id `db.ordSeq`, the payment gets id `db.paySeq` and refers to
that fresh order id, and the stock loop runs over the food table as it was
before the inserts. -/
def finalizeOrder (cart : List CartItem) (db : DB) (custid : Int)
    (delid : Option Int) (pm : Option String) : FlowResult :=
  if fkOkOrder db (firstFoodId cart) (firstDrinkId cart) delid then
    ⟨{ db with
        orders := db.orders ++
          [⟨db.ordSeq, cartTotal cart, firstFoodId cart, firstDrinkId cart, delid⟩],
        ordSeq := db.ordSeq + 1,
        payment := db.payment ++ [⟨db.paySeq, payMethodOf pm, custid, db.ordSeq⟩],
        paySeq := db.paySeq + 1,
        food := updateStock db.food cart },
     .placed db.ordSeq (cartTotal cart), []⟩
  else
    ⟨db, .fkViolation, cart⟩

/-- Model of `App.place_order_flow`, end to end.  An empty cart is rejected first;
then customer resolution (whose committed insert survives later aborts),
then delivery selection, then order / payment / stock updates committed
together. -/
def place_order_flow (cart : List CartItem) (db : DB) (p : Prompts) : FlowResult :=
  if cart.isEmpty then ⟨db, .emptyCart, cart⟩
  else
    match resolveCustomer db p with
    | .error o => ⟨db, o, cart⟩
    | .ok (db1, custid) =>
      match chooseDelivery db1 p with
      | .error o => ⟨db1, o, cart⟩
      | .ok delid => finalizeOrder cart db1 custid delid p.paymethod

/-! ## Schema initialisation (`init_db`)

Table creation is `CREATE TABLE IF NOT EXISTS`, a no-op on an already
initialised store, so only the seeding logic is modelled: each table is
populated with its fixed sample rows exactly when it is currently empty. -/

/-- Model of `if empty(table): cur.executemany('INSERT ...', seed)`. -/
def seedIfEmpty {α : Type} (t : List α) (s : List α) : List α :=
  if t.isEmpty then s else t

/-- Seed rows of the `cuisine` table. -/
def cuisineSeed : List CuisineRow :=
  [⟨1, "Italian"⟩, ⟨2, "Chinese"⟩, ⟨3, "Mexican"⟩, ⟨4, "Indian"⟩, ⟨5, "Japanese"⟩]

/-- Seed rows of the `employee` table. -/
def employeeSeed : List EmployeeRow :=
  [⟨1, "Michael", "Johnson", "1990-05-15", "mike@email.com", "emp_pass1", "789 Oak St", "5558765", "Male", 50000⟩,
   ⟨2, "Emily", "Wilson", "1985-02-20", "emily@email.com", "emp_pass2", "567 Pine St", "5554321", "Female", 45000⟩,
   ⟨3, "David", "Lee", "1988-09-10", "david@email.com", "emp_pass3", "654 Elm St", "5557890", "Male", 48000⟩,
   ⟨4, "Anna", "Garcia", "1993-03-25", "anna@email.com", "emp_pass4", "789 Oak St", "5551234", "Female", 52000⟩,
   ⟨5, "Robert", "Brown", "1987-12-12", "robert@email.com", "emp_pass5", "101 Oak St", "5553456", "Male", 55000⟩]

/-- Seed rows of the `chef` table. -/
def chefSeed : List ChefRow :=
  [⟨1, "Chef Mario", "123 Chef Way", "Apt 2C", "555-9876", 1, 1, "mario@email.com", "chef_pass1", 55000⟩,
   ⟨2, "Chef Lily", "456 Chef Lane", "Unit 5D", "555-2345", 2, 2, "lily@email.com", "chef_pass2", 52000⟩,
   ⟨3, "Chef Carlos", "789 Chef St", "Suite 1B", "555-7890", 3, 3, "carlos@email.com", "chef_pass3", 53000⟩,
   ⟨4, "Chef Priya", "101 Chef Rd", "Apt 3A", "555-4321", 4, 4, "priya@email.com", "chef_pass4", 51000⟩,
   ⟨5, "Chef Kenji", "456 Chef Ave", "Unit 4C", "555-3456", 5, 5, "kenji@email.com", "chef_pass5", 54000⟩]

/-- Seed rows of the `ingredient` table. -/
def ingredientSeed : List IngredientRow :=
  [⟨1, "Tomato"⟩, ⟨2, "Chicken"⟩, ⟨3, "Beef"⟩, ⟨4, "Rice"⟩, ⟨5, "Noodles"⟩]

/-- Seed rows of the `food` table. -/
def foodSeed : List FoodRow :=
  [⟨1, some ("Margherita Pizza"), some 12, some 20, some ("Available"), some 1, some 1, some 1⟩,
   ⟨2, some ("Kung Pao Chicken"), some 15, some 15, some ("Available"), some 2, some 2, some 2⟩,
   ⟨3, some ("Taco"), some 10, some 30, some ("Available"), some 3, some 3, some 3⟩,
   ⟨4, some ("Chicken Biryani"), some 14, some 25, some ("Available"), some 4, some 4, some 4⟩,
   ⟨5, some ("Sushi Rolls"), some 18, some 20, some ("Available"), some 5, some 5, some 5⟩]

/-- Seed rows of the `drink` table. -/
def drinkSeed : List DrinkRow :=
  [⟨1, "Coca-Cola", 2, "In Stock", "Available"⟩,
   ⟨2, "Sprite", 2, "In Stock", "Available"⟩,
   ⟨3, "Lemonade", 2, "In Stock", "Available"⟩,
   ⟨4, "Iced Tea", 2, "In Stock", "Available"⟩,
   ⟨5, "Orange Juice", 3, "In Stock", "Available"⟩]

/-- Seed rows of the `delivery` table. -/
def deliverySeed : List DeliveryRow :=
  [⟨1, "Fast Delivery", "DEL123", 5, "2023-10-13", "12:00 PM", none, none⟩,
   ⟨2, "Express Delivery", "DEL456", 7, "2023-10-14", "2:30 PM", none, none⟩,
   ⟨3, "Standard Delivery", "DEL789", 6, "2023-10-15", "3:45 PM", none, none⟩,
   ⟨4, "Late Night Delivery", "DEL987", 8, "2023-10-16", "9:00 PM", none, none⟩,
   ⟨5, "Weekend Delivery", "DEL654", 7, "2023-10-17", "10:30 AM", none, none⟩]

/-- Seed data of the `customer` table: only (name, phone, address) are given
and `custid` is auto-assigned by the AUTOINCREMENT sequence. -/
def customerSeedData : List (String × String × String) :=
  [("John Doe", "5551234", "123 Main St"),
   ("Alice Smith", "5555678", "456 Elm St"),
   ("Bob Johnson", "5559876", "789 Oak St"),
   ("Sarah Williams", "5554321", "567 Pine St"),
   ("Mike Brown", "5558765", "101 Oak St")]

/-- Seed the customer table when empty, consuming AUTOINCREMENT ids. -/
def seedCustomers (t : List CustomerRow) (seq : Int) : List CustomerRow × Int :=
  if t.isEmpty then
    (customerSeedData.enum.map (fun pr => ⟨seq + (pr.1 : Int), pr.2.1, pr.2.2.1, pr.2.2.2⟩),
     seq + (customerSeedData.length : Int))
  else (t, seq)

/-- Model of `init_db`: create tables if absent (a no-op on the model) and seed each
table that is currently empty with its fixed sample rows.  The script seeds
the tables one after the other, but each step reads and writes only its own
table, so the sequence is one simultaneous record update. -/
def init_db (db : DB) : DB :=
  { db with
    cuisine := seedIfEmpty db.cuisine cuisineSeed
    employee := seedIfEmpty db.employee employeeSeed
    chef := seedIfEmpty db.chef chefSeed
    ingredient := seedIfEmpty db.ingredient ingredientSeed
    food := seedIfEmpty db.food foodSeed
    drink := seedIfEmpty db.drink drinkSeed
    delivery := seedIfEmpty db.delivery deliverySeed
    customer := (seedCustomers db.customer db.custSeq).1
    custSeq := (seedCustomers db.customer db.custSeq).2 }

/-! ## Admin add-food form (`App.add_food_window.add_food`) -/

/-- Python's `int(s)` on a string, as used by the add-food form: surrounding
whitespace is stripped, an optional sign is followed by at least one decimal
digit; anything else raises `ValueError` (modelled as `none`).  (Python also
accepts underscore digit-group separators; the form's inputs are plain
digits, so that extension is irrelevant here and not modelled.) -/
def digitsToNat? (cs : List Char) : Option Nat :=
  cs.foldl
    (fun acc c =>
      match acc with
      | none => none
      | some n => if c.isDigit then some (n * 10 + (c.toNat - Char.toNat '0')) else none)
    (some 0)

/-- Model of `str.strip()`: drop leading and trailing whitespace. -/
def pyStrip (cs : List Char) : List Char :=
  ((cs.dropWhile Char.isWhitespace).reverse.dropWhile Char.isWhitespace).reverse

/-- See `digitsToNat?`: full `int(s)` parse with sign and whitespace strip. -/
def pyInt? (s : String) : Option Int :=
  match pyStrip s.toList with
  | [] => none
  | '-' :: rest => if rest.isEmpty then none else (digitsToNat? rest).map (fun n => -(n : Int))
  | '+' :: rest => if rest.isEmpty then none else (digitsToNat? rest).map (fun n => (n : Int))
  | cs => (digitsToNat? cs).map (fun n => (n : Int))

/-- Model of `entries[l].get() or None`: a tkinter Entry yields a string, and the
empty string is coerced to `None`. -/
def entryVal (s : String) : Option String :=
  if s = "" then none else some s

/-- Cleaning of one numeric column (`foodid, price, quantity, cuisineid,
ingid, chefid`): `None`, `''` and the literal string `'None'` become NULL,
anything else goes through `int(v)` with a failed parse coerced to NULL. -/
def cleanNumeric (v : Option String) : Option Int :=
  match v with
  | none => none
  | some s => if s = "" ∨ s = "None" then none else pyInt? s

/-- Cleaning of one text column: `None`, `''` and `'None'` become NULL,
any other string is kept as-is. -/
def cleanText (v : Option String) : Option String :=
  match v with
  | none => none
  | some s => if s = "" ∨ s = "None" then none else some s

/-- The raw text of the eight form entries, in the order of `labels`. -/
structure AddFoodForm where
  foodid : String
  foodname : String
  price : String
  quantity : String
  foodavail : String
  cuisineid : String
  ingid : String
  chefid : String
deriving DecidableEq, Repr

/-- The eight parameters bound to
`INSERT INTO food (foodid,foodname,price,quantity,foodavail,cuisineid,ingid,chefid)`
after cleaning. -/
structure CleanedFood where
  foodid : Option Int
  foodname : Option String
  price : Option Int
  quantity : Option Int
  foodavail : Option String
  cuisineid : Option Int
  ingid : Option Int
  chefid : Option Int
deriving DecidableEq, Repr

/-- The `add_food` callback's cleaning pass: each column is coerced
independently, numeric columns through `cleanNumeric`, text columns through
`cleanText`. -/
def add_food (f : AddFoodForm) : CleanedFood :=
  { foodid := cleanNumeric (entryVal f.foodid)
    foodname := cleanText (entryVal f.foodname)
    price := cleanNumeric (entryVal f.price)
    quantity := cleanNumeric (entryVal f.quantity)
    foodavail := cleanText (entryVal f.foodavail)
    cuisineid := cleanNumeric (entryVal f.cuisineid)
    ingid := cleanNumeric (entryVal f.ingid)
    chefid := cleanNumeric (entryVal f.chefid) }

/-- The insert executed with the cleaned parameters: the row is appended
whatever the cleaning produced (the statement itself, not the cleaning, is
the only thing that could still fail, on a constraint violation). -/
def add_food_insert (rows : List CleanedFood) (f : AddFoodForm) : List CleanedFood :=
  rows ++ [add_food f]

/-- Python truthiness of one `askstring` answer: `None` and the empty string
are the falsy values that make `if not (fname and lname and phone and
address)` reject the new customer. -/
def fieldFalsy : Option String → Bool
  | none => true
  | some s => s == ""

/-! ## Concrete fixtures used by the witness theorems -/

/-- A store with all tables empty and all sequences at their initial 1. -/
def emptyDB : DB :=
  ⟨[], [], [], [], [], [], [], [], [], [], 1, 1, 1⟩

/-- The store right after the first run: the schema with its seed rows. -/
def seededDB : DB :=
  init_db emptyDB

/-- The cart of the spec's worked example: food id 1 (price 12) qty 2 and
drink id 1 (price 2) qty 3. -/
def exCart : List CartItem :=
  [⟨ItemKind.food, some 1, "Margherita Pizza", 12, 2⟩,
   ⟨ItemKind.drink, some 1, "Coca-Cola", 2, 3⟩]

/-- Prompt answers for a fully successful checkout as existing customer 1
with delivery 1 paid in cash. -/
def exPromptsOk : Prompts :=
  ⟨some 1, false, none, none, none, none, some 1, some ("Cash")⟩

/-- Prompt answers that dismiss the delivery-selection dialog after choosing
existing customer 1. -/
def exPromptsDecline : Prompts :=
  ⟨some 1, false, none, none, none, none, none, none⟩

/-- Prompt answers that create a new customer and then dismiss the
delivery-selection dialog. -/
def exPromptsNewCustDecline : Prompts :=
  ⟨none, true, some ("Jane"), some ("Roe"), some ("5550000"), some ("9 Elm St"), none, none⟩

/-- Prompt answers naming a customer id that does not exist in the seeded
store. -/
def exPromptsBadCust : Prompts :=
  ⟨some 999, false, none, none, none, none, some 1, none⟩

/-- Prompt answers for a new customer with the phone field left empty. -/
def exPromptsNoPhone : Prompts :=
  ⟨none, true, some ("Jane"), some ("Roe"), some (""), some ("9 Elm St"), some 1, none⟩

/-- The seeded store with its delivery catalog emptied. -/
def noDeliveryDB : DB :=
  { seededDB with delivery := [] }

/-! ## Helper lemmas -/

/-- The running total accumulated left-to-right equals the starting value
plus the sum of the subtotals. -/
theorem foldl_subtotal_eq (cart : List CartItem) (a : Int) :
    cart.foldl (fun total it => total + it.price * it.qty) a
      = a + (cart.map (fun it => it.price * it.qty)).sum := by
  induction cart generalizing a with
  | nil => simp
  | cons x xs ih => simp [List.foldl_cons, ih, add_assoc]

/-- The displayed total always agrees with the line-item sum. -/
theorem update_cart_view_total_eq (cart : List CartItem) :
    update_cart_view_total cart = cartTotal cart := by
  simpa using foldl_subtotal_eq cart 0

/-- Seeding a table with a non-empty seed list is idempotent. -/
theorem seedIfEmpty_idem {α : Type} (t s : List α) (hs : s.isEmpty = false) :
    seedIfEmpty (seedIfEmpty t s) s = seedIfEmpty t s := by
  unfold seedIfEmpty
  by_cases h : t.isEmpty <;> simp [h, hs]

/-- Seeding the customer table (with its AUTOINCREMENT sequence) is
idempotent. -/
theorem seedCustomers_idem (t : List CustomerRow) (seq : Int) :
    seedCustomers (seedCustomers t seq).1 (seedCustomers t seq).2 = seedCustomers t seq := by
  unfold seedCustomers
  by_cases h : t.isEmpty
  · have hne : (customerSeedData.enum.map
        (fun pr => (⟨seq + (pr.1 : Int), pr.2.1, pr.2.2.1, pr.2.2.2⟩ : CustomerRow))).isEmpty
          = false := rfl
    simp [h, hne]
  · simp [h]

/-- A successful `createCustomer` appends exactly one customer row, bumps
the sequence, and returns the fresh id. -/
theorem createCustomer_ok_shape (db : DB) (p : Prompts) (db1 : DB) (c : Int)
    (h : createCustomer db p = .ok (db1, c)) :
    ∃ row : CustomerRow,
      db1 = { db with customer := db.customer ++ [row], custSeq := db.custSeq + 1 } ∧
      c = db.custSeq := by
  unfold createCustomer at h
  split at h
  · cases h
  · split at h
    · split at h
      · cases h
      · injection h with h1
        injection h1 with h2 h3
        exact ⟨_, h2.symm, h3.symm⟩
    · cases h

/-- A successful customer resolution either finds the id (store untouched)
or appends exactly one fresh customer row. -/
theorem resolveCustomer_ok_shape (db : DB) (p : Prompts) (db1 : DB) (c : Int)
    (h : resolveCustomer db p = .ok (db1, c)) :
    db1 = db ∨ ∃ row : CustomerRow,
      db1 = { db with customer := db.customer ++ [row], custSeq := db.custSeq + 1 } := by
  unfold resolveCustomer at h
  split at h
  · obtain ⟨row, hrow, _⟩ := createCustomer_ok_shape db p db1 c h
    exact Or.inr ⟨row, hrow⟩
  · split at h
    · obtain ⟨row, hrow, _⟩ := createCustomer_ok_shape db p db1 c h
      exact Or.inr ⟨row, hrow⟩
    · split at h
      · injection h with h1
        injection h1 with h2 h3
        exact Or.inl h2.symm
      · cases h

/-- Customer resolution never touches any table besides `customer`. -/
theorem resolveCustomer_ok_frame (db : DB) (p : Prompts) (db1 : DB) (c : Int)
    (h : resolveCustomer db p = .ok (db1, c)) :
    db1.food = db.food ∧ db1.drink = db.drink ∧ db1.delivery = db.delivery ∧
    db1.orders = db.orders ∧ db1.payment = db.payment ∧
    db1.ordSeq = db.ordSeq ∧ db1.paySeq = db.paySeq := by
  rcases resolveCustomer_ok_shape db p db1 c h with rfl | ⟨row, rfl⟩ <;>
    exact ⟨rfl, rfl, rfl, rfl, rfl, rfl, rfl⟩

/-- The only failure values customer resolution produces. -/
theorem resolveCustomer_error_cases (db : DB) (p : Prompts) (o2 : CheckoutOutcome)
    (h : resolveCustomer db p = .error o2) :
    o2 = .declinedCreate ∨ o2 = .missingFields ∨ o2 = .custNotFound := by
  unfold resolveCustomer createCustomer at h
  repeat' split at h
  all_goals simp_all

/-- The only failure value delivery selection produces. -/
theorem chooseDelivery_error_case (db : DB) (p : Prompts) (o2 : CheckoutOutcome)
    (h : chooseDelivery db p = .error o2) : o2 = .deliveryAborted := by
  unfold chooseDelivery at h
  repeat' split at h
  all_goals simp_all

/-- Computation rule: an empty cart short-circuits the whole flow. -/
theorem place_order_flow_eq_empty (cart : List CartItem) (db : DB) (p : Prompts)
    (hc : cart.isEmpty = true) :
    place_order_flow cart db p = ⟨db, .emptyCart, cart⟩ := by
  unfold place_order_flow
  rw [if_pos hc]

/-- Computation rule: a failed customer resolution aborts the flow with the
store untouched. -/
theorem place_order_flow_eq_err1 (cart : List CartItem) (db : DB) (p : Prompts)
    (o2 : CheckoutOutcome) (hc : cart.isEmpty = false)
    (hr : resolveCustomer db p = .error o2) :
    place_order_flow cart db p = ⟨db, o2, cart⟩ := by
  unfold place_order_flow
  rw [if_neg (by simp [hc]), hr]

/-- Computation rule: an aborted delivery selection ends the flow with the
store as customer resolution left it. -/
theorem place_order_flow_eq_err2 (cart : List CartItem) (db : DB) (p : Prompts)
    (db1 : DB) (custid : Int) (o2 : CheckoutOutcome) (hc : cart.isEmpty = false)
    (hr : resolveCustomer db p = .ok (db1, custid))
    (hd : chooseDelivery db1 p = .error o2) :
    place_order_flow cart db p = ⟨db1, o2, cart⟩ := by
  unfold place_order_flow
  rw [if_neg (by simp [hc]), hr]
  show (match chooseDelivery db1 p with
        | .error o => ({ db := db1, outcome := o, cart := cart } : FlowResult)
        | .ok delid => finalizeOrder cart db1 custid delid p.paymethod) = _
  rw [hd]

/-- Computation rule: the successful path runs `finalizeOrder`. -/
theorem place_order_flow_eq_ok (cart : List CartItem) (db : DB) (p : Prompts)
    (db1 : DB) (custid : Int) (delid : Option Int) (hc : cart.isEmpty = false)
    (hr : resolveCustomer db p = .ok (db1, custid))
    (hd : chooseDelivery db1 p = .ok delid) :
    place_order_flow cart db p = finalizeOrder cart db1 custid delid p.paymethod := by
  unfold place_order_flow
  rw [if_neg (by simp [hc]), hr]
  show (match chooseDelivery db1 p with
        | .error o => ({ db := db1, outcome := o, cart := cart } : FlowResult)
        | .ok delid => finalizeOrder cart db1 custid delid p.paymethod) = _
  rw [hd]

/-- A `placed` outcome characterises the successful path completely: the
cart was non-empty, customer and delivery resolved, and the store received
exactly one order row, one payment row, and the stock updates. -/
theorem place_order_flow_placed_shape (cart : List CartItem) (db : DB) (p : Prompts) (o t : Int)
    (h : (place_order_flow cart db p).outcome = .placed o t) :
    cart ≠ [] ∧
    ∃ db1 custid delid,
      resolveCustomer db p = .ok (db1, custid) ∧
      chooseDelivery db1 p = .ok delid ∧
      (place_order_flow cart db p).db.orders =
        db.orders ++ [⟨db.ordSeq, cartTotal cart, firstFoodId cart, firstDrinkId cart, delid⟩] ∧
      (place_order_flow cart db p).db.payment =
        db.payment ++ [⟨db.paySeq, payMethodOf p.paymethod, custid, db.ordSeq⟩] ∧
      (place_order_flow cart db p).db.food = updateStock db.food cart ∧
      (place_order_flow cart db p).db.drink = db.drink ∧
      (place_order_flow cart db p).cart = [] ∧
      o = db.ordSeq ∧ t = cartTotal cart := by
  by_cases hc : cart.isEmpty = true
  · rw [place_order_flow_eq_empty cart db p hc] at h
    simp at h
  · have hc2 : cart.isEmpty = false := by simpa using hc
    refine ⟨fun hnil => hc (by simp [hnil]), ?_⟩
    cases hr : resolveCustomer db p with
    | error o2 =>
      rw [place_order_flow_eq_err1 cart db p o2 hc2 hr] at h
      exfalso
      have h2 : o2 = CheckoutOutcome.placed o t := by simpa using h
      rcases resolveCustomer_error_cases db p o2 hr with h3 | h3 | h3 <;> simp [h3] at h2
    | ok pr =>
      obtain ⟨db1, custid⟩ := pr
      obtain ⟨hfood, hdrink, hdel, hord, hpay, hos, hps⟩ :=
        resolveCustomer_ok_frame db p db1 custid hr
      cases hd : chooseDelivery db1 p with
      | error o2 =>
        rw [place_order_flow_eq_err2 cart db p db1 custid o2 hc2 hr hd] at h
        exfalso
        have h2 : o2 = CheckoutOutcome.placed o t := by simpa using h
        rw [chooseDelivery_error_case db1 p o2 hd] at h2
        simp at h2
      | ok delid =>
        rw [place_order_flow_eq_ok cart db p db1 custid delid hc2 hr hd] at h ⊢
        simp only [finalizeOrder] at h ⊢
        by_cases hfk : fkOkOrder db1 (firstFoodId cart) (firstDrinkId cart) delid = true
        · rw [if_pos hfk] at h ⊢
          obtain ⟨ho, ht⟩ : db1.ordSeq = o ∧ cartTotal cart = t := by simpa using h
          refine ⟨db1, custid, delid, rfl, hd, ?_, ?_, ?_, ?_, rfl, ?_, ht.symm⟩
          · show db1.orders ++ _ = _
            rw [hord, hos]
          · show db1.payment ++ _ = _
            rw [hpay, hps, hos]
          · show updateStock db1.food cart = _
            rw [hfood]
          · exact hdrink
          · rw [← ho, hos]
        · rw [if_neg hfk] at h
          simp at h

/-- Whatever the outcome, the food table is either untouched or the result
of the stock-update loop, and the drink table is never touched. -/
theorem place_order_flow_tables (cart : List CartItem) (db : DB) (p : Prompts) :
    ((place_order_flow cart db p).db.food = db.food ∨
     (place_order_flow cart db p).db.food = updateStock db.food cart) ∧
    (place_order_flow cart db p).db.drink = db.drink := by
  by_cases hc : cart.isEmpty = true
  · rw [place_order_flow_eq_empty cart db p hc]
    exact ⟨Or.inl rfl, rfl⟩
  · have hc2 : cart.isEmpty = false := by simpa using hc
    cases hr : resolveCustomer db p with
    | error o2 =>
      rw [place_order_flow_eq_err1 cart db p o2 hc2 hr]
      exact ⟨Or.inl rfl, rfl⟩
    | ok pr =>
      obtain ⟨db1, custid⟩ := pr
      obtain ⟨hfood, hdrink, hdel, hord, hpay, hos, hps⟩ :=
        resolveCustomer_ok_frame db p db1 custid hr
      cases hd : chooseDelivery db1 p with
      | error o2 =>
        rw [place_order_flow_eq_err2 cart db p db1 custid o2 hc2 hr hd]
        exact ⟨Or.inl hfood, hdrink⟩
      | ok delid =>
        rw [place_order_flow_eq_ok cart db p db1 custid delid hc2 hr hd]
        simp only [finalizeOrder]
        by_cases hfk : fkOkOrder db1 (firstFoodId cart) (firstDrinkId cart) delid = true
        · rw [if_pos hfk]
          refine ⟨Or.inr ?_, hdrink⟩
          show updateStock db1.food cart = _
          rw [hfood]
        · rw [if_neg hfk]
          exact ⟨Or.inl hfood, hdrink⟩

/-- Dismissing the delivery prompt while the catalog is non-empty never
writes an order or a payment and never places the order. -/
theorem place_order_flow_decline (cart : List CartItem) (db : DB) (p : Prompts)
    (hdel : db.delivery ≠ []) (hch : p.deliveryChoice = none) :
    (place_order_flow cart db p).db.orders = db.orders ∧
    (place_order_flow cart db p).db.payment = db.payment ∧
    ∀ o t, (place_order_flow cart db p).outcome ≠ .placed o t := by
  by_cases hc : cart.isEmpty = true
  · rw [place_order_flow_eq_empty cart db p hc]
    exact ⟨rfl, rfl, fun o t h => by simp at h⟩
  · have hc2 : cart.isEmpty = false := by simpa using hc
    cases hr : resolveCustomer db p with
    | error o2 =>
      rw [place_order_flow_eq_err1 cart db p o2 hc2 hr]
      refine ⟨rfl, rfl, fun o t h => ?_⟩
      have h2 : o2 = CheckoutOutcome.placed o t := by simpa using h
      rcases resolveCustomer_error_cases db p o2 hr with h3 | h3 | h3 <;> simp [h3] at h2
    | ok pr =>
      obtain ⟨db1, custid⟩ := pr
      obtain ⟨hfood, hdrink, hdel1, hord, hpay, hos, hps⟩ :=
        resolveCustomer_ok_frame db p db1 custid hr
      have hcd : chooseDelivery db1 p = .error .deliveryAborted := by
        unfold chooseDelivery
        rw [hdel1, hch]
        rw [if_neg (by simpa using hdel)]
      rw [place_order_flow_eq_err2 cart db p db1 custid _ hc2 hr hcd]
      exact ⟨hord, hpay, fun o t h => by simp at h⟩

/-- Looking up a non-zero customer id that is absent from the customer table
fails with `custNotFound`. -/
theorem resolveCustomer_notfound (db : DB) (p : Prompts) (c : Int)
    (hc : p.custid = some c) (h0 : c ≠ 0)
    (hn : ∀ r ∈ db.customer, r.custid ≠ c) :
    resolveCustomer db p = .error .custNotFound := by
  have hany : db.customer.any (fun r => r.custid == c) = false := by
    rw [List.any_eq_false]
    intro r hr
    simpa using hn r hr
  simp only [resolveCustomer, hc]
  rw [if_neg h0, hany]
  simp

/-- A falsy customer-id answer routes to the create-new branch. -/
theorem resolveCustomer_create_path (db : DB) (p : Prompts)
    (h : p.custid = none ∨ p.custid = some 0) :
    resolveCustomer db p = createCustomer db p := by
  rcases h with h | h <;> simp [resolveCustomer, h]

/-- Creating a new customer with any required field `None` or empty fails
with `missingFields`. -/
theorem createCustomer_missing (db : DB) (p : Prompts) (hcr : p.createNew = true)
    (hm : (fieldFalsy p.fname || fieldFalsy p.lname || fieldFalsy p.phone ||
           fieldFalsy p.address) = true) :
    createCustomer db p = .error .missingFields := by
  unfold createCustomer
  rw [hcr, if_neg (by simp)]
  cases hf : p.fname <;> cases hl : p.lname <;> cases hph : p.phone <;> cases ha : p.address <;>
    simp_all [fieldFalsy]
  tauto

/-- Dismissing the delivery prompt with a non-empty catalog aborts. -/
theorem chooseDelivery_decline (db : DB) (p : Prompts)
    (hdel : db.delivery ≠ []) (hch : p.deliveryChoice = none) :
    chooseDelivery db p = .error .deliveryAborted := by
  unfold chooseDelivery
  rw [if_neg (by simpa using hdel), hch]

/-! ## Stock-update lemmas -/

/-- One clamped decrement keeps every stored quantity non-negative. -/
theorem decrementFood_nonneg (foods : List FoodRow) (fid qty : Int)
    (h : ∀ f ∈ foods, 0 ≤ f.quantity.getD 0) :
    ∀ f ∈ decrementFood foods fid qty, 0 ≤ f.quantity.getD 0 := by
  unfold decrementFood
  split
  · exact h
  · rename_i r hr
    intro f hf
    rw [List.mem_map] at hf
    obtain ⟨g, hg, rfl⟩ := hf
    by_cases hgf : (g.foodid == fid) = true
    · rw [if_pos hgf]
      simp [Option.getD]
    · rw [if_neg hgf]
      exact h g hg

/-- The whole stock-update loop keeps every stored quantity non-negative. -/
theorem updateStock_nonneg (cart : List CartItem) (foods : List FoodRow)
    (h : ∀ f ∈ foods, 0 ≤ f.quantity.getD 0) :
    ∀ f ∈ updateStock foods cart, 0 ≤ f.quantity.getD 0 := by
  induction cart generalizing foods with
  | nil => exact h
  | cons it rest ih =>
    have hstep : ∀ f ∈ (if it.typ == ItemKind.food then
          match it.id with
          | some fid => decrementFood foods fid it.qty
          | none => foods
        else foods), 0 ≤ f.quantity.getD 0 := by
      by_cases ht : (it.typ == ItemKind.food) = true
      · rw [if_pos ht]
        cases hid : it.id with
        | some fid => exact decrementFood_nonneg foods fid it.qty h
        | none => exact h
      · rw [if_neg ht]
        exact h
    exact ih _ hstep

/-- With distinct food ids (the `foodid` column is the primary key), one
iteration of the stock loop rewrites exactly the matching row's quantity to
`max 0 ((quantity or 0) - qty)` and leaves every other row unchanged. -/
theorem decrementFood_eq_map (foods : List FoodRow) (fid qty : Int)
    (hnd : (foods.map FoodRow.foodid).Nodup) :
    decrementFood foods fid qty = foods.map (fun g =>
      if g.foodid = fid
      then { g with quantity := some (max 0 (g.quantity.getD 0 - qty)) }
      else g) := by
  unfold decrementFood
  split
  · rename_i hnone
    rw [List.find?_eq_none] at hnone
    have hcg : ∀ g ∈ foods, (fun g => if g.foodid = fid
        then { g with quantity := some (max 0 (g.quantity.getD 0 - qty)) }
        else g) g = id g := by
      intro g hg
      have hne : ¬ g.foodid = fid := by simpa using hnone g hg
      simp [hne]
    rw [List.map_congr_left hcg, List.map_id]
  · rename_i r hr
    have hrmem : r ∈ foods := List.mem_of_find?_eq_some hr
    have hrfid : r.foodid = fid := by
      have := List.find?_some hr
      simpa using this
    apply List.map_congr_left
    intro g hg
    by_cases hgf : g.foodid = fid
    · have hge : r = g :=
        List.inj_on_of_nodup_map hnd hrmem hg (by rw [hrfid, hgf])
      rw [if_pos (by simpa using hgf), if_pos hgf, ← hge, hrfid]
    · rw [if_neg (by simpa using hgf), if_neg hgf]

/-! ## Claim theorems -/

/-- C3: For every sequence of add/remove/clear operations on the cart, the
displayed cart total equals the sum of unit_price × quantity over the line
items currently held in the cart, and equals 0 when the cart is empty. -/
theorem cart_total_correct (ops : List CartOp) :
    update_cart_view_total (applyOps ops []) = cartTotal (applyOps ops []) ∧
    (applyOps ops [] = [] → update_cart_view_total (applyOps ops []) = 0) := by
  refine ⟨update_cart_view_total_eq _, fun h => ?_⟩
  rw [h]
  rfl

/-- Witness for C3 at the concrete operation sequence `[clear]`. -/
theorem cart_total_correct_witness :
    applyOps [CartOp.clear] [] = [] ∧
    update_cart_view_total (applyOps [CartOp.clear] []) = 0 :=
  ⟨rfl, (cart_total_correct [CartOp.clear]).2 rfl⟩

/-- C5: Checkout invoked on an empty cart is rejected immediately and
performs no writes to any table: the returned store is the input store,
unchanged. -/
theorem empty_cart_checkout_rejected (db : DB) (p : Prompts) :
    place_order_flow [] db p = ⟨db, CheckoutOutcome.emptyCart, []⟩ :=
  rfl

/-- C8: For every cart and every removal index that is out of range
(negative or at least the cart's length), the remove operation is a silent
no-op: line items, order and total are all unchanged. -/
theorem remove_out_of_range_noop (cart : List CartItem) (idx : Int)
    (h : idx < 0 ∨ (cart.length : Int) ≤ idx) :
    remove_selected_cart cart idx = cart ∧
    cartTotal (remove_selected_cart cart idx) = cartTotal cart := by
  have hn : ¬ (0 ≤ idx ∧ idx < (cart.length : Int)) := by omega
  refine ⟨?_, ?_⟩ <;> simp [remove_selected_cart, hn]

/-- Witness for C8: removing at index 3 of a one-item cart changes nothing. -/
theorem remove_out_of_range_noop_witness :
    ((3 : Int) < 0 ∨ (([⟨ItemKind.food, some 1, "Taco", 10, 2⟩] : List CartItem).length : Int) ≤ 3) ∧
    remove_selected_cart [⟨ItemKind.food, some 1, "Taco", 10, 2⟩] 3 =
      [⟨ItemKind.food, some 1, "Taco", 10, 2⟩] :=
  ⟨by decide, (remove_out_of_range_noop [⟨ItemKind.food, some 1, "Taco", 10, 2⟩] 3 (by decide)).1⟩

/-- C9: Schema initialization is idempotent: running it a second time
against a store it already initialized creates no duplicate seed rows and
changes nothing, because table creation is create-if-not-exists and each
table's seed rows are inserted only when that table is empty. -/
theorem init_db_idempotent (db : DB) : init_db (init_db db) = init_db db := by
  cases db with
  | mk cu cui emp ch ing fo dr de orr pa cs os ps =>
    simp only [init_db, DB.mk.injEq]
    exact ⟨congrArg Prod.fst (seedCustomers_idem cu cs),
      seedIfEmpty_idem cui cuisineSeed rfl,
      seedIfEmpty_idem emp employeeSeed rfl,
      seedIfEmpty_idem ch chefSeed rfl,
      seedIfEmpty_idem ing ingredientSeed rfl,
      seedIfEmpty_idem fo foodSeed rfl,
      seedIfEmpty_idem dr drinkSeed rfl,
      seedIfEmpty_idem de deliverySeed rfl,
      trivial, trivial,
      congrArg Prod.snd (seedCustomers_idem cu cs),
      trivial, trivial⟩

/-- C10: The admin add-food form coerces each numeric field independently:
an empty or non-parsing value is stored as NULL while the rest of the row is
still inserted; in particular a non-numeric price does not reject the row. -/
theorem add_food_coercion (f : AddFoodForm) (rows : List CleanedFood)
    (h : pyInt? f.price = none) :
    (add_food f).price = none ∧
    add_food_insert rows f = rows ++ [add_food f] ∧
    (add_food f).foodid = cleanNumeric (entryVal f.foodid) ∧
    (add_food f).foodname = cleanText (entryVal f.foodname) ∧
    (add_food f).quantity = cleanNumeric (entryVal f.quantity) ∧
    (add_food f).foodavail = cleanText (entryVal f.foodavail) ∧
    (add_food f).cuisineid = cleanNumeric (entryVal f.cuisineid) ∧
    (add_food f).ingid = cleanNumeric (entryVal f.ingid) ∧
    (add_food f).chefid = cleanNumeric (entryVal f.chefid) := by
  refine ⟨?_, rfl, rfl, rfl, rfl, rfl, rfl, rfl, rfl⟩
  show cleanNumeric (entryVal f.price) = none
  unfold cleanNumeric entryVal
  by_cases hp : f.price = ""
  · simp [hp]
  · simp only [if_neg hp]
    split
    · rfl
    · exact h

/-- Witness for C10: price `"12.50"` fails `int()` parsing, is stored NULL,
and the row is inserted all the same. -/
theorem add_food_coercion_witness :
    pyInt? ("12.50") = none ∧
    (add_food ⟨"7", "Ramen", "12.50", "5", "Available", "5", "5", "5"⟩).price = none ∧
    add_food_insert [] ⟨"7", "Ramen", "12.50", "5", "Available", "5", "5", "5"⟩ =
      [add_food ⟨"7", "Ramen", "12.50", "5", "Available", "5", "5", "5"⟩] :=
  ⟨by decide,
   (add_food_coercion ⟨"7", "Ramen", "12.50", "5", "Available", "5", "5", "5"⟩ [] (by decide)).1,
   (add_food_coercion ⟨"7", "Ramen", "12.50", "5", "Available", "5", "5", "5"⟩ [] (by decide)).2.1⟩

/-- C1: For every non-empty cart whose checkout completes, exactly one order
record is persisted; its total cost equals the sum over all cart line items
of unit_price × quantity (price columns are INTEGER, so the `int()`
truncation at the insert is the identity), and it carries only the first
food line item's id and the first drink line item's id in cart iteration
order (null when no line item of that kind exists), regardless of how many
same-kind line items the cart holds. -/
theorem checkout_persists_single_order (cart : List CartItem) (db : DB) (p : Prompts)
    (o t : Int) (h : (place_order_flow cart db p).outcome = .placed o t) :
    cart ≠ [] ∧
    ∃ ord : OrderRow,
      (place_order_flow cart db p).db.orders = db.orders ++ [ord] ∧
      ord.totalcost = cartTotal cart ∧
      ord.foodid = firstFoodId cart ∧
      ord.drinkid = firstDrinkId cart := by
  obtain ⟨hne, db1, custid, delid, hr, hd, hord, hpay, hfood, hdrink, hcart, ho, ht⟩ :=
    place_order_flow_placed_shape cart db p o t h
  exact ⟨hne, ⟨db.ordSeq, cartTotal cart, firstFoodId cart, firstDrinkId cart, delid⟩,
    hord, rfl, rfl, rfl⟩

/-- Witness for C1: the spec's worked example — food 1 (price 12) qty 2 and
drink 1 (price 2) qty 3 — is placed with total 30 and yields one appended
order. -/
theorem checkout_persists_single_order_witness :
    (place_order_flow exCart seededDB exPromptsOk).outcome = .placed 1 30 ∧
    (∃ ord : OrderRow,
      (place_order_flow exCart seededDB exPromptsOk).db.orders = seededDB.orders ++ [ord] ∧
      ord.totalcost = cartTotal exCart ∧
      ord.foodid = firstFoodId exCart ∧
      ord.drinkid = firstDrinkId exCart) :=
  ⟨by decide,
   (checkout_persists_single_order exCart seededDB exPromptsOk 1 30 (by decide)).2⟩

/-- C2: During checkout every food line item's referenced food row is
decremented by that line item's quantity with the result clamped at zero
(a NULL stored quantity is treated as zero before decrementing), drinks are
never stock-adjusted, and consequently no food's stock quantity is negative
after checkout. -/
theorem checkout_stock_clamped_nonneg (cart : List CartItem) (db : DB) (p : Prompts)
    (hnn : ∀ f ∈ db.food, 0 ≤ f.quantity.getD 0) :
    (∀ f ∈ (place_order_flow cart db p).db.food, 0 ≤ f.quantity.getD 0) ∧
    (place_order_flow cart db p).db.drink = db.drink ∧
    (∀ (foods : List FoodRow) (fid qty : Int),
      (foods.map FoodRow.foodid).Nodup →
      decrementFood foods fid qty = foods.map (fun g =>
        if g.foodid = fid
        then { g with quantity := some (max 0 (g.quantity.getD 0 - qty)) }
        else g)) := by
  obtain ⟨hfd, hdr⟩ := place_order_flow_tables cart db p
  refine ⟨?_, hdr, fun foods fid qty hnd => decrementFood_eq_map foods fid qty hnd⟩
  rcases hfd with hfd | hfd <;> rw [hfd]
  · exact hnn
  · exact updateStock_nonneg cart db.food hnn

/-- Witness for C2: the seeded store has non-negative stock everywhere, and
the worked-example checkout leaves the drink table untouched. -/
theorem checkout_stock_clamped_nonneg_witness :
    (∀ f ∈ seededDB.food, 0 ≤ f.quantity.getD 0) ∧
    (place_order_flow exCart seededDB exPromptsOk).db.drink = seededDB.drink :=
  ⟨by decide,
   (checkout_stock_clamped_nonneg exCart seededDB exPromptsOk (by decide)).2.1⟩

/-- C4: Whenever checkout fails during customer resolution — the supplied
customer id does not exist, or a new customer is requested with any of first
name, last name, phone, or address missing (`None` or empty) — the whole
checkout aborts before any record is written: the store is exactly as it
was and nothing is placed. -/
theorem checkout_customer_failure_no_writes (cart : List CartItem) (db : DB) (p : Prompts)
    (h : (∃ c, p.custid = some c ∧ c ≠ 0 ∧ ∀ r ∈ db.customer, r.custid ≠ c) ∨
         ((p.custid = none ∨ p.custid = some 0) ∧ p.createNew = true ∧
          (fieldFalsy p.fname || fieldFalsy p.lname || fieldFalsy p.phone ||
           fieldFalsy p.address) = true)) :
    (place_order_flow cart db p).db = db ∧
    ∀ o t, (place_order_flow cart db p).outcome ≠ .placed o t := by
  have herr : resolveCustomer db p = .error .custNotFound ∨
      resolveCustomer db p = .error .missingFields := by
    rcases h with ⟨c, hc, h0, hn⟩ | ⟨hcid, hcr, hm⟩
    · exact Or.inl (resolveCustomer_notfound db p c hc h0 hn)
    · exact Or.inr
        ((resolveCustomer_create_path db p hcid).trans (createCustomer_missing db p hcr hm))
  by_cases hc2 : cart.isEmpty = true
  · rw [place_order_flow_eq_empty cart db p hc2]
    exact ⟨rfl, fun o t ht => by simp at ht⟩
  · have hc3 : cart.isEmpty = false := by simpa using hc2
    rcases herr with he | he <;>
      · rw [place_order_flow_eq_err1 cart db p _ hc3 he]
        exact ⟨rfl, fun o t ht => by simp at ht⟩

/-- Witness for C4: checking out with unknown customer id 999 against the
seeded store leaves the store exactly as it was. -/
theorem checkout_customer_failure_no_writes_witness :
    (place_order_flow exCart seededDB exPromptsBadCust).db = seededDB :=
  (checkout_customer_failure_no_writes exCart seededDB exPromptsBadCust
    (Or.inl ⟨999, rfl, by decide, by decide⟩)).1

/-- C6 counterexample: with the seeded (non-empty) delivery catalog and the
user dismissing the delivery prompt, the claimed behaviour that checkout
still completes
is false at this concrete input: the flow aborts with `deliveryAborted` and
no order is written. -/
theorem delivery_decline_aborts_counterexample :
    seededDB.delivery ≠ [] ∧
    exPromptsDecline.deliveryChoice = none ∧
    (place_order_flow exCart seededDB exPromptsDecline).outcome =
      CheckoutOutcome.deliveryAborted ∧
    (place_order_flow exCart seededDB exPromptsDecline).db.orders = seededDB.orders :=
  ⟨by decide, rfl, by decide, by decide⟩

/-- C6 (amended): when the delivery catalog is empty, checkout completes
with the order's delivery reference left unset (null); when the catalog is
non-empty and the user dismisses the delivery selection, the checkout is
abandoned instead: no order or payment row is written and nothing is
placed. -/
theorem delivery_optional_or_abort (cart : List CartItem) (db : DB) (p : Prompts) :
    (db.delivery = [] → ∀ o t, (place_order_flow cart db p).outcome = .placed o t →
      ∃ ord : OrderRow,
        (place_order_flow cart db p).db.orders = db.orders ++ [ord] ∧ ord.delid = none) ∧
    (db.delivery ≠ [] → p.deliveryChoice = none →
      (place_order_flow cart db p).db.orders = db.orders ∧
      (place_order_flow cart db p).db.payment = db.payment ∧
      ∀ o t, (place_order_flow cart db p).outcome ≠ .placed o t) := by
  constructor
  · intro hdel o t h
    obtain ⟨hne, db1, custid, delid, hr, hd, hord, hpay, hfood, hdrink, hcart, ho, ht⟩ :=
      place_order_flow_placed_shape cart db p o t h
    have hdel1 : db1.delivery = [] := by
      rw [(resolveCustomer_ok_frame db p db1 custid hr).2.2.1, hdel]
    have hdnone : delid = none := by
      unfold chooseDelivery at hd
      rw [hdel1] at hd
      simpa using hd.symm
    exact ⟨⟨db.ordSeq, cartTotal cart, firstFoodId cart, firstDrinkId cart, delid⟩,
      hord, hdnone⟩
  · intro hdel hch
    exact place_order_flow_decline cart db p hdel hch

/-- Witness for C6 (amended): with the delivery catalog emptied the worked
example is placed with a null delivery reference; with the seeded catalog
and a dismissed prompt, no order row is written. -/
theorem delivery_optional_or_abort_witness :
    noDeliveryDB.delivery = [] ∧
    (place_order_flow exCart noDeliveryDB exPromptsOk).outcome = .placed 1 30 ∧
    (∃ ord : OrderRow,
      (place_order_flow exCart noDeliveryDB exPromptsOk).db.orders =
        noDeliveryDB.orders ++ [ord] ∧ ord.delid = none) ∧
    seededDB.delivery ≠ [] ∧
    (place_order_flow exCart seededDB exPromptsDecline).db.orders = seededDB.orders :=
  ⟨rfl, by decide,
   (delivery_optional_or_abort exCart noDeliveryDB exPromptsOk).1 rfl 1 30 (by decide),
   by decide,
   ((delivery_optional_or_abort exCart seededDB exPromptsDecline).2 (by decide) rfl).1⟩

/-- C7: If a new customer is created during checkout and the flow is then
abandoned at the delivery prompt, the already committed customer insert
survives: the new customer row is persisted although no order or payment
row is created. -/
theorem abandoned_checkout_keeps_new_customer (cart : List CartItem) (db : DB) (p : Prompts)
    (f l ph a : String)
    (hc : cart.isEmpty = false)
    (h0 : p.custid = none)
    (hcr : p.createNew = true)
    (hf : p.fname = some f) (hl : p.lname = some l)
    (hph : p.phone = some ph) (ha : p.address = some a)
    (hfne : f ≠ "") (hlne : l ≠ "") (hphne : ph ≠ "") (hane : a ≠ "")
    (hdel : db.delivery ≠ []) (hch : p.deliveryChoice = none) :
    (place_order_flow cart db p).db.customer =
      db.customer ++ [⟨db.custSeq, f ++ " " ++ l, ph, a⟩] ∧
    (place_order_flow cart db p).db.orders = db.orders ∧
    (place_order_flow cart db p).db.payment = db.payment ∧
    (place_order_flow cart db p).outcome = .deliveryAborted := by
  have hres : resolveCustomer db p = .ok (({ db with customer := db.customer ++ [⟨db.custSeq, f ++ " " ++ l, ph, a⟩], custSeq := db.custSeq + 1 } : DB), db.custSeq) := by
    simp only [resolveCustomer, h0, createCustomer, hcr, hf, hl, hph, ha]
    rw [if_neg (by simp), if_neg (by simp [hfne, hlne, hphne, hane])]
  have hcd := chooseDelivery_decline { db with customer := db.customer ++ [⟨db.custSeq, f ++ " " ++ l, ph, a⟩], custSeq := db.custSeq + 1 } p hdel hch
  rw [place_order_flow_eq_err2 cart db p _ _ _ hc hres hcd]
  exact ⟨rfl, rfl, rfl, rfl⟩

/-- Witness for C7: creating customer Jane Roe and then dismissing the
delivery prompt leaves the new customer row persisted with no order. -/
theorem abandoned_checkout_keeps_new_customer_witness :
    (place_order_flow exCart seededDB exPromptsNewCustDecline).db.customer =
      seededDB.customer ++ [⟨seededDB.custSeq, "Jane Roe", "5550000", "9 Elm St"⟩] ∧
    (place_order_flow exCart seededDB exPromptsNewCustDecline).db.orders =
      seededDB.orders ∧
    (place_order_flow exCart seededDB exPromptsNewCustDecline).outcome =
      CheckoutOutcome.deliveryAborted := by
  have h := abandoned_checkout_keeps_new_customer exCart seededDB exPromptsNewCustDecline
    ("Jane") ("Roe") ("5550000") ("9 Elm St") rfl rfl rfl rfl rfl rfl rfl
    (by decide) (by decide) (by decide) (by decide) (by decide) rfl
  exact ⟨h.1, h.2.1, h.2.2.2⟩

end FoodOrdering
